import Mathlib

/-!
Verification of the Goal Pacing Engine of the `dashboard-vendas1` repository.

The backend (Node/Express, `backend/server.js` main variant) computes an
adaptive daily sales target from a monthly quota, realized sales and the
remaining selling days of the month.  We embed the relevant pure logic:

* calendar dates are modelled by their proleptic-Gregorian day number
  (`daysFromCivil`), with `getDay` mirroring JavaScript `Date.getDay()`
  (0 = Sunday);
* `contarDiasUteis` mirrors the day-by-day counting loop of the source;
* monetary values (SQL `DECIMAL`, JS numbers) are modelled as `ℚ`;
* the database tables `vendedoras`, `vendas`, `metas` are explicit lists and
  the route handlers become pure functions over that state.
-/

/-- Leap-year test of the proleptic Gregorian calendar. -/
def bissexto (y : Nat) : Bool :=
  (y % 4 == 0 && y % 100 != 0) || (y % 400 == 0)

/-- Number of days of month `m` (1-12) in year `y`, as produced by the
JavaScript expression `new Date(ano, mes + 1, 0).getDate()`. -/
def diasNoMes (y m : Nat) : Nat :=
  if m = 2 then (if bissexto y then 29 else 28)
  else if m = 4 ∨ m = 6 ∨ m = 9 ∨ m = 11 then 30
  else 31

/-- Day number of the civil date `y-m-d` (days since 0000-03-01 in the
proleptic Gregorian calendar); `daysFromCivil 1970 1 1 = 719468`. -/
def daysFromCivil (y m d : Nat) : Nat :=
  let y' := if m ≤ 2 then y - 1 else y
  let era := y' / 400
  let yoe := y' % 400
  let mp := (m + 9) % 12
  let doy := (153 * mp + 2) / 5 + d - 1
  let doe := yoe * 365 + yoe / 4 - yoe / 100 + doy
  era * 146097 + doe

/-- Weekday of a day number, with the JavaScript `Date.getDay()` convention:
0 = Sunday, 1 = Monday, …, 6 = Saturday. -/
def getDay (n : Nat) : Nat := (n + 3) % 7

/-- The body of the `while (d <= end)` loop of `contarDiasUteis` in
`backend/server.js`: starting at day `dd`, walk `n` successive days and count
those whose weekday is not Sunday. -/
def contarDiasUteisGo : Nat → Nat → Nat
  | 0, _ => 0
  | n + 1, dd => (if getDay dd ≠ 0 then 1 else 0) + contarDiasUteisGo n (dd + 1)

/-- `contarDiasUteis` from `backend/server.js`: counts the days of the closed
interval `[s, e]` whose weekday is not Sunday (Monday-Saturday are the selling
days); the loop body never runs when `e < s`. -/
def contarDiasUteis (s e : Nat) : Nat :=
  if e < s then 0 else contarDiasUteisGo (e - s + 1) s

/-- Modelled from the spec: `countSellingDays` counts every calendar day in
the closed interval whose weekday is not Sunday, and is 0 when `from > to`
(the interval is then empty). -/
def countSellingDaysSpec (s e : Nat) : Nat :=
  ((Finset.Icc s e).filter (fun dd => getDay dd ≠ 0)).card

lemma contarDiasUteisGo_eq_card (n : Nat) : ∀ s : Nat,
    contarDiasUteisGo (n + 1) s =
      ((Finset.Icc s (s + n)).filter (fun dd => getDay dd ≠ 0)).card := by
  induction n with
  | zero =>
    intro s
    simp [contarDiasUteisGo, Finset.Icc_self, Finset.filter_singleton]
    split <;> simp_all
  | succ k ih =>
    intro s
    have hstep : contarDiasUteisGo (k + 1 + 1) s =
        (if getDay s ≠ 0 then 1 else 0) + contarDiasUteisGo (k + 1) (s + 1) := rfl
    rw [hstep, ih (s + 1)]
    have hle : s ≤ s + (k + 1) := Nat.le_add_right _ _
    have hsplit : Finset.Icc s (s + (k + 1)) =
        insert s (Finset.Icc (s + 1) (s + (k + 1))) := by
      rw [Nat.Icc_succ_left, Finset.Ioc_insert_left hle]
    rw [hsplit, Finset.filter_insert]
    have hnot : s ∉ Finset.Icc (s + 1) (s + (k + 1)) := by
      simp
    have harith : s + 1 + k = s + (k + 1) := by omega
    split
    · rw [Finset.card_insert_of_not_mem (by
        intro hmem
        exact hnot (Finset.mem_of_mem_filter _ hmem))]
      rw [harith]
      omega
    · rw [harith]
      omega

/-- Claim C6: `contarDiasUteis from to` equals the number of calendar days in
the closed interval `[from, to]` whose weekday is not Sunday; it is 0 when
`from > to`, and on a single day `D` it is 0 when `D` is a Sunday and 1
otherwise. -/
theorem contarDiasUteis_spec (s e dd : Nat) :
    contarDiasUteis s e = countSellingDaysSpec s e ∧
    (e < s → contarDiasUteis s e = 0) ∧
    contarDiasUteis dd dd = (if getDay dd = 0 then 0 else 1) := by
  refine ⟨?_, ?_, ?_⟩
  · unfold contarDiasUteis countSellingDaysSpec
    by_cases h : e < s
    · rw [if_pos h, Finset.Icc_eq_empty (by omega), Finset.filter_empty,
        Finset.card_empty]
    · rw [if_neg h]
      have hse : s ≤ e := by omega
      have he : e = s + (e - s) := by omega
      rw [contarDiasUteisGo_eq_card (e - s) s, ← he]
  · intro h
    unfold contarDiasUteis
    rw [if_pos h]
  · unfold contarDiasUteis
    rw [if_neg (by omega)]
    have h1 : dd - dd + 1 = 1 := by omega
    rw [h1]
    show (if getDay dd ≠ 0 then 1 else 0) + 0 = _
    split <;> simp_all

/-! ### Data model: the `vendedoras`, `vendas` and `metas` tables -/

/-- A row of the `vendedoras` table (the fields the pacing engine reads):
`meta_mensal` and `meta_padrao` are nullable `DECIMAL` columns and `ativo` the
active flag. -/
structure Vendedora where
  meta_mensal : Option ℚ
  meta_padrao : Option ℚ
  ativo : Bool
  deriving DecidableEq

/-- A row of the `vendas` table; `data_venda` is the sale's timestamp at day
granularity (its day number). -/
structure Venda where
  vendedora_id : Nat
  valor : ℚ
  data_venda : Nat
  deriving DecidableEq

/-- A row of the `metas` table (manual daily override), keyed by
`(vendedora_id, data_meta)`. -/
structure Meta where
  vendedora_id : Nat
  valor_meta : ℚ
  data_meta : Nat
  deriving DecidableEq

/-- The database state seen by the pacing engine. -/
structure DB where
  vendedoras : List (Nat × Vendedora)
  vendas : List Venda
  metas : List Meta
  deriving DecidableEq

/-- `SELECT meta_mensal, meta_padrao FROM vendedoras WHERE id = $1`. -/
def lookupVendedora (l : List (Nat × Vendedora)) (sid : Nat) : Option Vendedora :=
  (l.find? (fun p => p.1 == sid)).map Prod.snd

/-- The seller lookup of the `autenticar` middleware:
`SELECT ... FROM vendedoras WHERE id = $1 AND ativo = true`. -/
def lookupAtiva (l : List (Nat × Vendedora)) (sid : Nat) : Option Vendedora :=
  (l.find? (fun p => p.1 == sid && p.2.ativo)).map Prod.snd

/-- `Number(x || 0)`: a NULL `DECIMAL` column is read as 0. -/
def coalesceQ (o : Option ℚ) : ℚ := o.getD 0

/-- `SELECT COALESCE(SUM(valor),0) FROM vendas WHERE vendedora_id = $1 AND
data_venda >= $2 AND data_venda < ($3::date + INTERVAL '1 day')`: at day
granularity, the sum of the seller's sale amounts with day number in
`[lo, hi]`. -/
def sumVendas (vs : List Venda) (sid lo hi : Nat) : ℚ :=
  (vs.filter (fun v =>
      v.vendedora_id == sid && decide (lo ≤ v.data_venda) &&
        decide (v.data_venda ≤ hi))).foldr (fun v acc => v.valor + acc) 0

/-- The `(vendedora_id, data_meta)` key test of the `metas` table. -/
def keyMatch (sid dia : Nat) (mr : Meta) : Bool :=
  mr.vendedora_id == sid && mr.data_meta == dia

/-- `SELECT valor_meta FROM metas WHERE vendedora_id = $1 AND data_meta = $2`. -/
def lookupMeta (ms : List Meta) (sid dia : Nat) : Option ℚ :=
  (ms.find? (keyMatch sid dia)).map (fun mr => mr.valor_meta)

/-! ### The resolver `calcularMetaDia` and the `/api/metas` routes -/

/-- Result object of `calcularMetaDia`:
`{ metaDia, metaMensal, vendidoNoMes, faltaNoMes }`. -/
structure MetaDiaResult where
  metaDia : ℚ
  metaMensal : ℚ
  vendidoNoMes : ℚ
  faltaNoMes : ℚ
  deriving DecidableEq

/-- The realized-to-date sum of `calcularMetaDia`: sales of the seller from
the first day of the month of `y-m-d` through `y-m-d` inclusive. -/
def vendidoCalc (db : DB) (sid y m d : Nat) : ℚ :=
  sumVendas db.vendas sid (daysFromCivil y m 1) (daysFromCivil y m d)

/-- The selling days remaining in the month of `y-m-d` counted from `y-m-d`
itself, as computed by `contarDiasUteis(dataISO, fimMes)`. -/
def diasRestCalc (y m d : Nat) : Nat :=
  contarDiasUteis (daysFromCivil y m d) (daysFromCivil y m (diasNoMes y m))

/-- `calcularMetaDia(vendedoraId, dataISO)` from `backend/server.js`:
look the seller up (missing seller yields the all-zero record); when the
monthly quota is unset (`!metaMensal`) return the fixed default target;
otherwise pace the unmet remainder over the remaining selling days. -/
def calcularMetaDia (db : DB) (sid y m d : Nat) : MetaDiaResult :=
  match lookupVendedora db.vendedoras sid with
  | none => ⟨0, 0, 0, 0⟩
  | some v =>
    let metaMensal := coalesceQ v.meta_mensal
    let metaPadrao := coalesceQ v.meta_padrao
    if metaMensal = 0 then ⟨metaPadrao, 0, 0, 0⟩
    else
      let vendidoNoMes := vendidoCalc db sid y m d
      let faltaNoMes := max (metaMensal - vendidoNoMes) 0
      let diasUteisRestantes := diasRestCalc y m d
      let metaDia0 : ℚ :=
        if 0 < diasUteisRestantes then faltaNoMes / (diasUteisRestantes : ℚ)
        else 0
      let metaDia := if faltaNoMes = 0 then 0 else metaDia0
      ⟨metaDia, metaMensal, vendidoNoMes, faltaNoMes⟩

/-- JSON body returned by `GET /api/metas/:data`. -/
structure MetasResponse where
  valor_meta : ℚ
  meta_mensal : ℚ
  vendido_no_mes : ℚ
  falta_no_mes : ℚ
  deriving DecidableEq

/-- The handler of `GET /api/metas/:data`: run `calcularMetaDia`, then let an
exact-match override row replace only the `valor_meta` field. -/
def getMetasRota (db : DB) (sid y m d : Nat) : MetasResponse :=
  let r := calcularMetaDia db sid y m d
  match lookupMeta db.metas sid (daysFromCivil y m d) with
  | some vm => ⟨vm, r.metaMensal, r.vendidoNoMes, r.faltaNoMes⟩
  | none => ⟨r.metaDia, r.metaMensal, r.vendidoNoMes, r.faltaNoMes⟩

/-- Failure of the daily-goal operation: the `autenticar` middleware answers
401 when no active seller row matches the id. -/
inductive GoalError where
  | notFound
  deriving DecidableEq

/-- The full `GET /api/metas/:data` pipeline: `autenticar` (which rejects a
missing or inactive seller) followed by the route handler. -/
def getDailyGoal (db : DB) (sid y m d : Nat) : Except GoalError MetasResponse :=
  match lookupAtiva db.vendedoras sid with
  | none => Except.error GoalError.notFound
  | some _ => Except.ok (getMetasRota db sid y m d)

/-! ### The override write `POST /api/metas` -/

/-- The conflict action `DO UPDATE SET valor_meta = EXCLUDED.valor_meta`
applied to one row: replace the value when the row carries the key. -/
def atualizaMeta (sid dia : Nat) (valor : ℚ) (mr : Meta) : Meta :=
  if keyMatch sid dia mr then { mr with valor_meta := valor } else mr

/-- `INSERT INTO metas ... ON CONFLICT (vendedora_id, data_meta) DO UPDATE SET
valor_meta = EXCLUDED.valor_meta`: replace the value of every row with the
key when one exists, otherwise append a fresh row. -/
def upsertMeta (ms : List Meta) (sid dia : Nat) (valor : ℚ) : List Meta :=
  if ms.any (keyMatch sid dia) then ms.map (atualizaMeta sid dia valor)
  else ms ++ [⟨sid, valor, dia⟩]

/-- The handler of `POST /api/metas` (both the `part_000` and
`backend/server.js` variants): upsert the override row; no check on the sign
of the amount is performed. -/
def setOverride (db : DB) (sid dia : Nat) (valor : ℚ) : DB :=
  { db with metas := upsertMeta db.metas sid dia valor }

/-! ### The `part_003` variant: `calcularMetaDinamica` -/

/-- Loop body of `diasUteisRestantes()` in the `part_003` variant: for the
day-of-month `dd` and `k` following days of month `y-m`, count the non-Sunday
days. -/
def diasUteisGo (y m : Nat) : Nat → Nat → Nat
  | 0, _ => 0
  | k + 1, dd =>
    (if getDay (daysFromCivil y m dd) ≠ 0 then 1 else 0) +
      diasUteisGo y m k (dd + 1)

/-- `diasUteisRestantes()` from the `part_003` variant, with the clock date
`y-m-d` made explicit: count the non-Sunday days of month `y-m` from
day-of-month `d` through the last day of the month. -/
def diasUteisRestantesEm (y m d : Nat) : Nat :=
  if diasNoMes y m < d then 0 else diasUteisGo y m (diasNoMes y m - d + 1) d

/-- `calcularMetaDinamica(metaMensal, vendidoAteHoje)` from the `part_003`
variant, with the clock date `y-m-d` made explicit: when no selling days
remain it returns `metaMensal` itself (the commented "fallback"), otherwise
the remainder paced over the remaining days, clamped at 0. -/
def calcularMetaDinamica (y m d : Nat) (metaMensal vendidoAteHoje : ℚ) : ℚ :=
  let diasRestantes := diasUteisRestantesEm y m d
  if diasRestantes ≤ 0 then metaMensal
  else max ((metaMensal - vendidoAteHoje) / (diasRestantes : ℚ)) 0

/-! ### Example database used by the concrete witnesses (the spec §8
scenario: quota 30000, one 10000 sale early in March 2024, an override of 500
on 2024-03-10). -/

/-- Seller 1 of the example: monthly quota 30000, default daily target
15000, active. -/
def vend1 : Vendedora := ⟨some 30000, some 15000, true⟩

/-- Example database for the computed-path scenario of spec §8. -/
def exDB : DB :=
  { vendedoras := [(1, vend1)]
    vendas := [⟨1, 10000, daysFromCivil 2024 3 5⟩]
    metas := [] }

/-- Example database with the 500 override on 2024-03-10 added. -/
def exDBov : DB :=
  { exDB with metas := [⟨1, 500, daysFromCivil 2024 3 10⟩] }

/-- Database for the fallback witnesses: seller 2 has no monthly quota
(NULL) but recorded sales of 5000 in March 2024. -/
def fbDB : DB :=
  { vendedoras := [(2, ⟨none, some 15000, true⟩)]
    vendas := [⟨2, 5000, daysFromCivil 2024 3 5⟩]
    metas := [] }

/-- Database for the goal-met witness: seller 3 already sold 35000 against a
30000 quota. -/
def satDB : DB :=
  { vendedoras := [(3, ⟨some 30000, some 15000, true⟩)]
    vendas := [⟨3, 35000, daysFromCivil 2024 3 7⟩]
    metas := [] }

/-- Database for the not-found witness: seller 4 exists but is inactive. -/
def inactiveDB : DB :=
  { vendedoras := [(4, ⟨some 30000, some 15000, false⟩)]
    vendas := []
    metas := [] }

/-- Database for the upsert witness: an override of 200 already stored for
seller 1 on 2024-03-10. -/
def ovDB : DB :=
  { vendedoras := [(1, vend1)]
    vendas := []
    metas := [⟨1, 200, daysFromCivil 2024 3 10⟩] }

/-! ### Concrete evaluation facts for the witnesses (the `ℚ` operations are
not kernel-reducible, so the rational arithmetic goes through `simp` and
`norm_num` while the `Nat` calendar facts go through `decide`). -/

lemma dfc_2024_3_1 : daysFromCivil 2024 3 1 = 739251 := by decide

lemma dfc_2024_3_5 : daysFromCivil 2024 3 5 = 739255 := by decide

lemma dfc_2024_3_7 : daysFromCivil 2024 3 7 = 739257 := by decide

lemma dfc_2024_3_10 : daysFromCivil 2024 3 10 = 739260 := by decide

lemma diasRest_2024_3_10 : diasRestCalc 2024 3 10 = 18 := by decide

lemma exDB_vendido : vendidoCalc exDB 1 2024 3 10 = 10000 := by
  simp +decide [vendidoCalc, sumVendas, exDB, dfc_2024_3_1, dfc_2024_3_5,
    dfc_2024_3_10]

lemma exDBov_vendido : vendidoCalc exDBov 1 2024 3 10 = 10000 := exDB_vendido

lemma satDB_vendido : vendidoCalc satDB 3 2024 3 10 = 35000 := by
  simp +decide [vendidoCalc, sumVendas, satDB, dfc_2024_3_1, dfc_2024_3_7,
    dfc_2024_3_10]

/-! ### Unfolding lemmas for `calcularMetaDia` and `getMetasRota` -/

lemma calcularMetaDia_fallback_eq (db : DB) (sid y m d : Nat) (v : Vendedora)
    (hv : lookupVendedora db.vendedoras sid = some v)
    (hq : coalesceQ v.meta_mensal = 0) :
    calcularMetaDia db sid y m d = ⟨coalesceQ v.meta_padrao, 0, 0, 0⟩ := by
  unfold calcularMetaDia
  rw [hv]
  simp [hq]

lemma calcularMetaDia_computed_eq (db : DB) (sid y m d : Nat) (v : Vendedora)
    (hv : lookupVendedora db.vendedoras sid = some v)
    (hq : coalesceQ v.meta_mensal ≠ 0) :
    calcularMetaDia db sid y m d =
      ⟨if max (coalesceQ v.meta_mensal - vendidoCalc db sid y m d) 0 = 0 then 0
        else if 0 < diasRestCalc y m d then
          max (coalesceQ v.meta_mensal - vendidoCalc db sid y m d) 0 /
            (diasRestCalc y m d : ℚ)
        else 0,
       coalesceQ v.meta_mensal,
       vendidoCalc db sid y m d,
       max (coalesceQ v.meta_mensal - vendidoCalc db sid y m d) 0⟩ := by
  unfold calcularMetaDia
  rw [hv]
  simp only [if_neg hq]

lemma getMetasRota_fields (db : DB) (sid y m d : Nat) :
    (getMetasRota db sid y m d).meta_mensal =
        (calcularMetaDia db sid y m d).metaMensal ∧
    (getMetasRota db sid y m d).vendido_no_mes =
        (calcularMetaDia db sid y m d).vendidoNoMes ∧
    (getMetasRota db sid y m d).falta_no_mes =
        (calcularMetaDia db sid y m d).faltaNoMes := by
  unfold getMetasRota
  cases lookupMeta db.metas sid (daysFromCivil y m d) <;> simp

lemma getMetasRota_override_eq (db : DB) (sid y m d : Nat) (vm : ℚ)
    (h : lookupMeta db.metas sid (daysFromCivil y m d) = some vm) :
    (getMetasRota db sid y m d).valor_meta = vm := by
  unfold getMetasRota
  rw [h]

/-! ### Claim theorems about the resolver and the read route -/

/-- Claim C1: when an override row exists for the exact (seller, date), the
daily-goal response's `valor_meta` is the stored override value (the override
path), while `meta_mensal`, `vendido_no_mes` and `falta_no_mes` keep the
values of the computed path. -/
theorem override_precedence (db : DB) (sid y m d : Nat) (vm : ℚ)
    (h : lookupMeta db.metas sid (daysFromCivil y m d) = some vm) :
    (getMetasRota db sid y m d).valor_meta = vm ∧
    (getMetasRota db sid y m d).meta_mensal =
        (calcularMetaDia db sid y m d).metaMensal ∧
    (getMetasRota db sid y m d).vendido_no_mes =
        (calcularMetaDia db sid y m d).vendidoNoMes ∧
    (getMetasRota db sid y m d).falta_no_mes =
        (calcularMetaDia db sid y m d).faltaNoMes :=
  ⟨getMetasRota_override_eq db sid y m d vm h, getMetasRota_fields db sid y m d⟩

/-- Witness for C1, the spec §8 scenario: the override 500 wins over the
computed 20000/18 and the monthly figures stay those of the computed path. -/
theorem override_precedence_witness :
    (getMetasRota exDBov 1 2024 3 10).valor_meta = 500 ∧
    (calcularMetaDia exDBov 1 2024 3 10).metaDia = 20000 / 18 ∧
    (getMetasRota exDBov 1 2024 3 10).vendido_no_mes = 10000 ∧
    (getMetasRota exDBov 1 2024 3 10).falta_no_mes = 20000 := by
  have hov : lookupMeta exDBov.metas 1 (daysFromCivil 2024 3 10) = some 500 := rfl
  have h := override_precedence exDBov 1 2024 3 10 500 hov
  have hv : lookupVendedora exDBov.vendedoras 1 = some vend1 := rfl
  have hcm := calcularMetaDia_computed_eq exDBov 1 2024 3 10 vend1 hv
    (by norm_num [vend1, coalesceQ])
  refine ⟨h.1, ?_, ?_, ?_⟩
  · rw [hcm]
    norm_num [vend1, coalesceQ, exDBov_vendido, diasRest_2024_3_10, max_def]
  · rw [h.2.2.1, hcm]
    norm_num [vend1, coalesceQ, exDBov_vendido]
  · rw [h.2.2.2, hcm]
    norm_num [vend1, coalesceQ, exDBov_vendido, max_def]

/-- Claim C2: on the computed path (quota set, something still to sell,
selling days remaining), the daily target is the exact rational quotient of
the unmet remainder by the remaining selling days — no rounding. -/
theorem exact_quotient (db : DB) (sid y m d : Nat) (v : Vendedora)
    (hv : lookupVendedora db.vendedoras sid = some v)
    (hq : 0 < coalesceQ v.meta_mensal)
    (hr : 0 < max (coalesceQ v.meta_mensal - vendidoCalc db sid y m d) 0)
    (hd : 0 < diasRestCalc y m d) :
    (calcularMetaDia db sid y m d).metaDia =
      max (coalesceQ v.meta_mensal - vendidoCalc db sid y m d) 0 /
        (diasRestCalc y m d : ℚ) := by
  rw [calcularMetaDia_computed_eq db sid y m d v hv hq.ne']
  simp only [if_neg hr.ne', if_pos hd]

/-- Witness for C2, the spec §8 scenario: quota 30000, realized 10000,
date 2024-03-10, 18 selling days left, target exactly 20000/18. -/
theorem exact_quotient_witness :
    (calcularMetaDia exDB 1 2024 3 10).metaDia = 20000 / 18 := by
  have hv : lookupVendedora exDB.vendedoras 1 = some vend1 := rfl
  have h := exact_quotient exDB 1 2024 3 10 vend1 hv
    (by norm_num [vend1, coalesceQ])
    (by norm_num [vend1, coalesceQ, exDB_vendido, lt_max_iff])
    (by decide)
  rw [h]
  norm_num [vend1, coalesceQ, exDB_vendido, diasRest_2024_3_10, max_def]

/-- Claim C3: when the seller's monthly quota is unset, `calcularMetaDia`
returns the fixed default daily target, whatever the recorded sales are. -/
theorem fallback_default_target (db : DB) (sid y m d : Nat) (v : Vendedora)
    (hv : lookupVendedora db.vendedoras sid = some v)
    (hq : coalesceQ v.meta_mensal = 0) :
    calcularMetaDia db sid y m d = ⟨coalesceQ v.meta_padrao, 0, 0, 0⟩ :=
  calcularMetaDia_fallback_eq db sid y m d v hv hq

/-- Witness for C3: seller 2 has a NULL quota and 5000 of sales, and still
gets exactly the default target 15000. -/
theorem fallback_default_target_witness :
    calcularMetaDia fbDB 2 2024 3 10 = ⟨15000, 0, 0, 0⟩ := by
  have h := fallback_default_target fbDB 2 2024 3 10 ⟨none, some 15000, true⟩
    rfl rfl
  simpa [coalesceQ] using h

/-- Claim C4: with a positive quota already reached, the unmet remainder is
`max(quota − realized, 0)`, hence 0 and never negative, and the computed
daily target is 0. -/
theorem goal_met_saturation (db : DB) (sid y m d : Nat) (v : Vendedora)
    (hv : lookupVendedora db.vendedoras sid = some v)
    (hq : 0 < coalesceQ v.meta_mensal)
    (hr : coalesceQ v.meta_mensal ≤ vendidoCalc db sid y m d) :
    (calcularMetaDia db sid y m d).faltaNoMes =
      max (coalesceQ v.meta_mensal - vendidoCalc db sid y m d) 0 ∧
    (calcularMetaDia db sid y m d).faltaNoMes = 0 ∧
    (calcularMetaDia db sid y m d).metaDia = 0 := by
  have hmax : max (coalesceQ v.meta_mensal - vendidoCalc db sid y m d) 0 = 0 :=
    max_eq_right (sub_nonpos.mpr hr)
  rw [calcularMetaDia_computed_eq db sid y m d v hv hq.ne']
  simp [hmax]

/-- Witness for C4: seller 3 sold 35000 against a quota of 30000; the
remainder saturates to 0 and the daily target is 0. -/
theorem goal_met_saturation_witness :
    (calcularMetaDia satDB 3 2024 3 10).faltaNoMes = 0 ∧
    (calcularMetaDia satDB 3 2024 3 10).metaDia = 0 := by
  have h := goal_met_saturation satDB 3 2024 3 10 ⟨some 30000, some 15000, true⟩
    rfl (by norm_num [coalesceQ]) (by norm_num [coalesceQ, satDB_vendido])
  exact ⟨h.2.1, h.2.2⟩

/-! ### C5: the no-selling-days policy, and the divergence of the
`part_003` variant -/

lemma dfc_2024_3_31 : daysFromCivil 2024 3 31 = 739281 := by decide

/-- Counterexample to claim C5: on 2024-03-31 — a Sunday and the last day of
the month, so no selling days remain — the `part_003` variant
`calcularMetaDinamica` with quota 30000 and 10000 realized returns the whole
monthly quota 30000, not 0. -/
theorem no_selling_days_cex :
    diasUteisRestantesEm 2024 3 31 = 0 ∧
    calcularMetaDinamica 2024 3 31 30000 10000 = 30000 ∧
    calcularMetaDinamica 2024 3 31 30000 10000 ≠ 0 := by
  refine ⟨by decide, rfl, ?_⟩
  have h : calcularMetaDinamica 2024 3 31 30000 10000 = 30000 := rfl
  rw [h]
  norm_num

/-- Claim C5 (amended): in the main variant `calcularMetaDia`, with a set
quota, a positive unmet remainder and no selling days remaining, the
computed daily target is 0; the `part_003` variant `calcularMetaDinamica`
instead returns the whole monthly quota whenever its remaining-days count is
0. -/
theorem no_selling_days_policy (db : DB) (sid y m d : Nat) (v : Vendedora)
    (y3 m3 d3 : Nat) (q r : ℚ)
    (hv : lookupVendedora db.vendedoras sid = some v)
    (hq : 0 < coalesceQ v.meta_mensal)
    (hr : 0 < max (coalesceQ v.meta_mensal - vendidoCalc db sid y m d) 0)
    (hd : diasRestCalc y m d = 0)
    (hd3 : diasUteisRestantesEm y3 m3 d3 = 0) :
    (calcularMetaDia db sid y m d).metaDia = 0 ∧
    calcularMetaDinamica y3 m3 d3 q r = q := by
  constructor
  · rw [calcularMetaDia_computed_eq db sid y m d v hv hq.ne']
    simp [hr.ne', hd]
  · simp [calcularMetaDinamica, hd3]

/-- Witness for the amended C5: seller 1 on 2024-03-31 (quota 30000,
realized 10000, 0 selling days left) gets computed target 0 from
`calcularMetaDia`, while `calcularMetaDinamica` yields the full 30000. -/
theorem no_selling_days_policy_witness :
    (calcularMetaDia exDB 1 2024 3 31).metaDia = 0 ∧
    calcularMetaDinamica 2024 3 31 30000 10000 = 30000 := by
  have hv : lookupVendedora exDB.vendedoras 1 = some vend1 := rfl
  have hvc : vendidoCalc exDB 1 2024 3 31 = 10000 := by
    simp +decide [vendidoCalc, sumVendas, exDB, dfc_2024_3_1, dfc_2024_3_5,
      dfc_2024_3_31]
  exact no_selling_days_policy exDB 1 2024 3 31 vend1 2024 3 31 30000 10000 hv
    (by norm_num [vend1, coalesceQ])
    (by norm_num [vend1, coalesceQ, hvc, lt_max_iff])
    (by decide) (by decide)

/-! ### C7: missing or inactive sellers are rejected -/

/-- Claim C7: the daily-goal pipeline fails with NotFound (the 401 of the
`autenticar` middleware) whenever no active row exists for the seller id —
missing or inactive — so it never succeeds with a confident 0 for such a
seller. -/
theorem daily_goal_not_found (db : DB) (sid y m d : Nat)
    (h : ∀ p ∈ db.vendedoras, p.1 = sid → p.2.ativo = false) :
    getDailyGoal db sid y m d = Except.error GoalError.notFound := by
  have hl : db.vendedoras.find? (fun p => p.1 == sid && p.2.ativo) = none := by
    refine List.find?_eq_none.mpr (fun p hp hb => ?_)
    have hsplit := (Bool.and_eq_true _ _).mp hb
    have h1 : p.1 = sid := by simpa using hsplit.1
    have h2 : p.2.ativo = true := hsplit.2
    rw [h p hp h1] at h2
    exact Bool.false_ne_true h2
  simp [getDailyGoal, lookupAtiva, hl]

/-- Witness for C7: seller 4 exists but is inactive, and the pipeline
answers NotFound. -/
theorem daily_goal_not_found_witness :
    getDailyGoal inactiveDB 4 2024 3 10 = Except.error GoalError.notFound :=
  daily_goal_not_found inactiveDB 4 2024 3 10 (by decide)

/-! ### C8/C9: the override write -/

/-- Counterexample to claim C8: `POST /api/metas` performs no validation of
the amount, so a negative override (-100) is accepted and stored instead of
failing with a ValidationError. -/
theorem negative_override_stored :
    lookupMeta (setOverride exDB 1 739260 (-100)).metas 1 739260 =
      some (-100) := rfl

lemma keyMatch_update (sid dia : Nat) (a : ℚ) (mr : Meta) :
    keyMatch sid dia { mr with valor_meta := a } = keyMatch sid dia mr := rfl

lemma atualizaMeta_key (sid dia : Nat) (a : ℚ) (mr : Meta) :
    keyMatch sid dia (atualizaMeta sid dia a mr) = keyMatch sid dia mr := by
  unfold atualizaMeta
  split <;> rfl

lemma atualizaMeta_vid (sid dia : Nat) (a : ℚ) (mr : Meta) :
    (atualizaMeta sid dia a mr).vendedora_id = mr.vendedora_id := by
  unfold atualizaMeta
  split <;> rfl

lemma atualizaMeta_dm (sid dia : Nat) (a : ℚ) (mr : Meta) :
    (atualizaMeta sid dia a mr).data_meta = mr.data_meta := by
  unfold atualizaMeta
  split <;> rfl

lemma atualizaMeta_idem (sid dia : Nat) (a : ℚ) (mr : Meta) :
    atualizaMeta sid dia a (atualizaMeta sid dia a mr) =
      atualizaMeta sid dia a mr := by
  by_cases h : keyMatch sid dia mr = true
  · simp [atualizaMeta, h, keyMatch_update]
  · simp [atualizaMeta, h]

lemma any_map_atualiza (sid dia : Nat) (a : ℚ) :
    ∀ ms : List Meta,
      (ms.map (atualizaMeta sid dia a)).any (keyMatch sid dia) =
        ms.any (keyMatch sid dia) := by
  intro ms
  induction ms with
  | nil => rfl
  | cons mr t ih => simp [atualizaMeta_key, ih]

lemma map_atualiza_idem (sid dia : Nat) (a : ℚ) :
    ∀ ms : List Meta,
      (ms.map (atualizaMeta sid dia a)).map (atualizaMeta sid dia a) =
        ms.map (atualizaMeta sid dia a) := by
  intro ms
  induction ms with
  | nil => rfl
  | cons mr t ih => simp [atualizaMeta_idem, ih]

lemma map_atualiza_no_match (sid dia : Nat) (a : ℚ) :
    ∀ ms : List Meta, ms.any (keyMatch sid dia) = false →
      ms.map (atualizaMeta sid dia a) = ms := by
  intro ms
  induction ms with
  | nil => intro _; rfl
  | cons mr t ih =>
    intro h
    rw [List.any_cons] at h
    have h1 : keyMatch sid dia mr = false := by
      cases hk : keyMatch sid dia mr
      · rfl
      · rw [hk] at h; simp at h
    have h2 : t.any (keyMatch sid dia) = false := by
      cases ht : t.any (keyMatch sid dia)
      · rfl
      · rw [ht] at h; simp at h
    rw [List.map_cons, ih h2]
    congr 1
    unfold atualizaMeta
    rw [if_neg (by simp [h1])]

lemma lookup_map_atualiza (sid dia : Nat) (a : ℚ) :
    ∀ ms : List Meta, ms.any (keyMatch sid dia) = true →
      lookupMeta (ms.map (atualizaMeta sid dia a)) sid dia = some a := by
  intro ms
  induction ms with
  | nil => intro h; cases h
  | cons mr t ih =>
    intro h
    by_cases hk : keyMatch sid dia mr = true
    · unfold lookupMeta
      rw [List.map_cons,
        List.find?_cons_of_pos _ (by rw [atualizaMeta_key]; exact hk)]
      simp [atualizaMeta, hk]
    · unfold lookupMeta
      rw [List.map_cons,
        List.find?_cons_of_neg _ (by rw [atualizaMeta_key]; simp [hk])]
      have ht : t.any (keyMatch sid dia) = true := by
        rw [List.any_cons] at h
        rcases (Bool.or_eq_true _ _).mp h with h1 | h2
        · exact absurd h1 hk
        · exact h2
      exact ih ht

lemma lookup_append_new (sid dia : Nat) (a : ℚ) :
    ∀ ms : List Meta, ms.any (keyMatch sid dia) = false →
      lookupMeta (ms ++ [⟨sid, a, dia⟩]) sid dia = some a := by
  intro ms
  induction ms with
  | nil =>
    intro _
    unfold lookupMeta
    rw [List.nil_append, List.find?_cons_of_pos _ (by simp [keyMatch])]
    rfl
  | cons mr t ih =>
    intro h
    rw [List.any_cons] at h
    have h1 : ¬ keyMatch sid dia mr = true := by
      intro hk
      rw [hk] at h
      simp at h
    have h2 : t.any (keyMatch sid dia) = false := by
      cases ht : t.any (keyMatch sid dia)
      · rfl
      · rw [ht] at h; simp at h
    unfold lookupMeta
    rw [List.cons_append, List.find?_cons_of_neg _ h1]
    exact ih h2

lemma lookup_upsert (ms : List Meta) (sid dia : Nat) (a : ℚ) :
    lookupMeta (upsertMeta ms sid dia a) sid dia = some a := by
  unfold upsertMeta
  by_cases hm : ms.any (keyMatch sid dia) = true
  · rw [if_pos hm]
    exact lookup_map_atualiza sid dia a ms hm
  · have hm' : ms.any (keyMatch sid dia) = false := by simpa using hm
    rw [if_neg hm]
    exact lookup_append_new sid dia a ms hm'

/-- Claim C8 (amended): `setOverride` performs no validation of the amount —
every amount, negative ones included, is accepted and stored under the
(seller, date) key. -/
theorem setOverride_stores_any_amount (db : DB) (sid dia : Nat) (a : ℚ) :
    lookupMeta (setOverride db sid dia a).metas sid dia = some a :=
  lookup_upsert db.metas sid dia a

/-- Distinctness of the `(vendedora_id, data_meta)` keys of two rows: the
UNIQUE constraint of the `metas` table holds when a list of rows is pairwise
key-distinct. -/
def chaveDistinta (r1 r2 : Meta) : Prop :=
  ¬(r1.vendedora_id = r2.vendedora_id ∧ r1.data_meta = r2.data_meta)

lemma upsert_idem (ms : List Meta) (sid dia : Nat) (a : ℚ) :
    upsertMeta (upsertMeta ms sid dia a) sid dia a = upsertMeta ms sid dia a := by
  unfold upsertMeta
  by_cases hm : ms.any (keyMatch sid dia) = true
  · rw [if_pos hm, if_pos (by rw [any_map_atualiza]; exact hm),
      map_atualiza_idem]
  · have hm' : ms.any (keyMatch sid dia) = false := by simpa using hm
    have hnew : keyMatch sid dia ⟨sid, a, dia⟩ = true := by simp [keyMatch]
    have happ : (ms ++ [(⟨sid, a, dia⟩ : Meta)]).any (keyMatch sid dia) = true := by
      rw [List.any_append]
      simp [hnew]
    rw [if_neg hm, if_pos happ, List.map_append,
      map_atualiza_no_match sid dia a ms hm']
    congr 1
    simp [atualizaMeta, hnew]

lemma upsert_pairwise (ms : List Meta) (sid dia : Nat) (a : ℚ)
    (h : ms.Pairwise chaveDistinta) :
    (upsertMeta ms sid dia a).Pairwise chaveDistinta := by
  unfold upsertMeta
  by_cases hm : ms.any (keyMatch sid dia) = true
  · rw [if_pos hm]
    refine h.map _ (fun x y hxy => ?_)
    unfold chaveDistinta at hxy ⊢
    rwa [atualizaMeta_vid, atualizaMeta_vid, atualizaMeta_dm, atualizaMeta_dm]
  · have hm' : ms.any (keyMatch sid dia) = false := by simpa using hm
    rw [if_neg hm, List.pairwise_append]
    refine ⟨h, List.pairwise_singleton _ _, ?_⟩
    intro x hx y hy
    simp only [List.mem_singleton] at hy
    subst hy
    unfold chaveDistinta
    intro hc
    have hk : keyMatch sid dia x = true := by
      unfold keyMatch
      rw [Bool.and_eq_true, beq_iff_eq, beq_iff_eq]
      exact ⟨hc.1, hc.2⟩
    have hany : ms.any (keyMatch sid dia) = true :=
      List.any_eq_true.mpr ⟨x, hx, hk⟩
    rw [hm'] at hany
    exact Bool.false_ne_true hany

lemma upsert_length (ms : List Meta) (sid dia : Nat) (a : ℚ)
    (h : ms.any (keyMatch sid dia) = true) :
    (upsertMeta ms sid dia a).length = ms.length := by
  unfold upsertMeta
  rw [if_pos h, List.length_map]

/-- Claim C9: `setOverride` has upsert semantics — writing the same (seller,
date, amount) twice leaves the store as after one write, the stored value
for the key is the written amount, pairwise key-distinctness (the UNIQUE
constraint) is preserved, and a write on an existing key replaces the row
rather than adding one. -/
theorem setOverride_upsert_semantics (db : DB) (sid dia : Nat) (a : ℚ)
    (h : db.metas.Pairwise chaveDistinta) :
    setOverride (setOverride db sid dia a) sid dia a =
      setOverride db sid dia a ∧
    lookupMeta (setOverride db sid dia a).metas sid dia = some a ∧
    ((setOverride db sid dia a).metas).Pairwise chaveDistinta ∧
    (db.metas.any (keyMatch sid dia) = true →
      (setOverride db sid dia a).metas.length = db.metas.length) := by
  refine ⟨?_, lookup_upsert db.metas sid dia a,
    upsert_pairwise db.metas sid dia a h,
    fun hm => upsert_length db.metas sid dia a hm⟩
  show ({ db with
      metas := upsertMeta (upsertMeta db.metas sid dia a) sid dia a } : DB) =
    { db with metas := upsertMeta db.metas sid dia a }
  rw [upsert_idem]

/-- Witness for C9: rewriting the existing 2024-03-10 override of seller 1
to 500 twice equals doing it once, stores 500, and keeps a single row. -/
theorem setOverride_upsert_semantics_witness :
    setOverride (setOverride ovDB 1 739260 500) 1 739260 500 =
      setOverride ovDB 1 739260 500 ∧
    lookupMeta (setOverride ovDB 1 739260 500).metas 1 739260 = some 500 ∧
    (setOverride ovDB 1 739260 500).metas.length = ovDB.metas.length := by
  have h := setOverride_upsert_semantics ovDB 1 739260 500
    (List.pairwise_singleton _ _)
  exact ⟨h.1, h.2.1, h.2.2.2 rfl⟩

/-! ### C10: the fallback path ignores the `vendas` table -/

/-- Claim C10: with an unset monthly quota the resolver takes the fallback
path without consulting the `vendas` table — the result is unchanged under
any replacement of the recorded sales — and the daily-goal response reports
`vendido_no_mes = 0` and `falta_no_mes = 0` even for a seller with recorded
sales that month. -/
theorem fallback_ignores_vendas (db : DB) (vs : List Venda) (sid y m d : Nat)
    (v : Vendedora)
    (hv : lookupVendedora db.vendedoras sid = some v)
    (hq : coalesceQ v.meta_mensal = 0) :
    calcularMetaDia { db with vendas := vs } sid y m d =
      calcularMetaDia db sid y m d ∧
    (getMetasRota db sid y m d).vendido_no_mes = 0 ∧
    (getMetasRota db sid y m d).falta_no_mes = 0 := by
  have h1 := calcularMetaDia_fallback_eq db sid y m d v hv hq
  have h2 := calcularMetaDia_fallback_eq { db with vendas := vs } sid y m d v
    hv hq
  have hf := getMetasRota_fields db sid y m d
  refine ⟨h2.trans h1.symm, ?_, ?_⟩
  · rw [hf.2.1, h1]
  · rw [hf.2.2, h1]

/-- Witness for C10: seller 2 has a NULL quota and a recorded 5000 sale, yet
the response shows 0 sold and 0 missing, and erasing all sales does not
change the computation. -/
theorem fallback_ignores_vendas_witness :
    calcularMetaDia { fbDB with vendas := [] } 2 2024 3 10 =
      calcularMetaDia fbDB 2 2024 3 10 ∧
    (getMetasRota fbDB 2 2024 3 10).vendido_no_mes = 0 ∧
    (getMetasRota fbDB 2 2024 3 10).falta_no_mes = 0 :=
  fallback_ignores_vendas fbDB [] 2 2024 3 10 ⟨none, some 15000, true⟩ rfl rfl

/-- Witness for C6 at concrete inputs: the interval 2024-03-10..2024-03-31
agrees with the specification count, an inverted interval counts 0, and the
single Sunday 2024-03-31 counts 0. -/
theorem contarDiasUteis_spec_witness :
    contarDiasUteis 739260 739281 = countSellingDaysSpec 739260 739281 ∧
    contarDiasUteis 739281 739260 = 0 ∧
    contarDiasUteis 739281 739281 = 0 := by
  have h1 := contarDiasUteis_spec 739260 739281 739281
  have h2 := contarDiasUteis_spec 739281 739260 739281
  refine ⟨h1.1, h2.2.1 (by decide), ?_⟩
  rw [h1.2.2]
  decide
